import Mathlib

/-!
Verification development for src/build.py of bellflight/AVR-PX4-Firmware.

The script reconciles two upstream git checkouts (PX4-Autopilot and
pymavlink) against a pinned PX4 version, injects the vendor mavlink
dialect definition, commits the tree, and produces build artifacts.

Two complementary shallow embeddings are used:

* a state-machine model of the checkout reconciler (clone_px4,
  clone_pymavlink, and the reset-and-patch phase of build_pymavlink):
  every external command is a Step transforming an abstract Checkout,
  and may fail according to an environment oracle Env (a failing
  subprocess.check_call raises, aborting the run); and

* a trace model of the container pipeline (container, build_pymavlink,
  build_px4): the ordered list of external actions the script performs,
  with an executor execActs that stops at the first failing action.
-/

/-- Lexicographic comparison of char lists by code point. -/
def charListLt : List Char → List Char → Bool
  | [], [] => false
  | [], _ :: _ => true
  | _ :: _, [] => false
  | a :: as, b :: bs =>
      if a < b then true
      else if b < a then false
      else charListLt as bs

/-- Python string comparison a < b (code-point lexicographic), as used on
version tags in build.py (PX4_VERSION < "v1.13.0"). -/
def pyStrLt (a b : String) : Bool := charListLt a.data b.data

/-- Version literal "v1.13.0" that build.py compares PX4_VERSION against:
the boundary between the two historical pymavlink/message-definition
layouts. -/
def layoutBoundary : String := "v1.13.0"

/-- Model of os.path.join(a, b) for a relative second component. -/
def pathJoin (a b : String) : String := a ++ "/" ++ b

/-- DIST_DIR = os.path.join(THIS_DIR, "dist"). -/
def DIST_DIR (thisDir : String) : String := pathJoin thisDir "dist"

/-- PX4_DIR = os.path.join(THIS_DIR, "build", "PX4-Autopilot"). -/
def PX4_DIR (thisDir : String) : String :=
  pathJoin (pathJoin thisDir "build") "PX4-Autopilot"

/-- PYMAVLINK_DIR from build.py lines 18-28: before the layout boundary a
top-level build/pymavlink checkout, from the boundary on the nested
pymavlink tree inside the PX4 checkout. -/
def PYMAVLINK_DIR (thisDir pxVersion : String) : String :=
  if pyStrLt pxVersion layoutBoundary then
    pathJoin (pathJoin thisDir "build") "pymavlink"
  else
    pathJoin
      (pathJoin (pathJoin (pathJoin (pathJoin (PX4_DIR thisDir) "src")
        "modules") "mavlink") "mavlink")
      "pymavlink"

/-- The message_definitions_dir computed in container (build.py lines
251-271): legacy path below the boundary, nested path at or above it. -/
def message_definitions_dir (thisDir pxVersion : String) : String :=
  if pyStrLt pxVersion layoutBoundary then
    pathJoin
      (pathJoin (pathJoin (pathJoin (pathJoin (PX4_DIR thisDir) "mavlink")
        "include") "mavlink") "v2.0")
      "message_definitions"
  else
    pathJoin
      (pathJoin (pathJoin (pathJoin (pathJoin (pathJoin (PX4_DIR thisDir)
        "src") "modules") "mavlink") "mavlink") "message_definitions")
      "v1.0"

/-- The generated_message_dir computed in container (build.py lines
260 and 271). -/
def generated_message_dir (thisDir pxVersion : String) : String :=
  if pyStrLt pxVersion layoutBoundary then
    pathJoin (message_definitions_dir thisDir pxVersion) ".."
  else
    pathJoin
      (pathJoin (pathJoin (message_definitions_dir thisDir pxVersion) "..")
        "..")
      ".."

/-- bell_xml_def = os.path.join(message_definitions_dir, "bell.xml"). -/
def bell_xml_def (thisDir pxVersion : String) : String :=
  pathJoin (message_definitions_dir thisDir pxVersion) "bell.xml"

/-- Abstract on-disk state of one upstream checkout directory: absent, or
present at an observed version (the tag recovered from the remote refs of
the clone), possibly with local edits, possibly with the version patch
currently applied to the working tree. -/
inductive Checkout where
  | absent
  | present (version : String) (localEdits : Bool) (patched : Bool)
  deriving DecidableEq

/-- Observed local version of a checkout, as build.py recovers it from
the output of git remote show origin -n; none when the directory is
absent. -/
def Checkout.obsVersion : Checkout → Option String
  | .absent => none
  | .present v _ _ => some v

/-- Whether the version-specific patch is currently applied to the
working tree. -/
def Checkout.patchApplied : Checkout → Bool
  | .absent => false
  | .present _ _ p => p

/-- Kinds of external operations the reconciler performs on a checkout. -/
inductive GitOp where
  | remoteShow
  | rmtree
  | clone
  | fetch
  | checkout
  | resetHard
  | pull
  | apply
  deriving DecidableEq

/-- One performed operation together with the checkout state it was run
against. -/
structure Step where
  op : GitOp
  pre : Checkout
  deriving DecidableEq

/-- A failed external command: subprocess.check_call raised. -/
inductive GitError where
  | cmdFailed (op : GitOp)
  deriving DecidableEq

/-- Success oracle for the external commands: which invocations exit with
status zero. Patch application additionally fails deterministically on an
already-patched tree (git apply does not apply a patch twice). -/
structure Env where
  showOk : Bool
  cloneOk : Bool
  fetchOk : Bool
  checkoutOk : Bool
  resetOk : Bool
  pullOk : Bool
  applyOk : Bool
  deriving DecidableEq

/-- Environment in which every external command succeeds. -/
def envAllOk : Env := ⟨true, true, true, true, true, true, true⟩

/-- Result of running a sequence of checkout operations: the steps that
were invoked (in order, including a final failing one) and either the
resulting checkout state or the error that aborted the run. -/
structure Outcome where
  steps : List Step
  result : Except GitError Checkout

/-- Sequencing with check_call semantics: a raised error propagates and
no further command runs. -/
def andThen (o : Outcome) (f : Checkout → Outcome) : Outcome :=
  match o.result with
  | .error _ => o
  | .ok c => ⟨o.steps ++ (f c).steps, (f c).result⟩

/-- A single external command: records its step, succeeds to the given
next state iff the oracle bit is set. -/
def opStep (op : GitOp) (c : Checkout) (ok : Bool) (next : Checkout) : Outcome :=
  ⟨[⟨op, c⟩], if ok then .ok next else .error (.cmdFailed op)⟩

/-- git remote show origin -n (read-only inspection recovering the
observed local version); fails on a missing directory. -/
def gitRemoteShow (env : Env) (c : Checkout) : Outcome :=
  match c with
  | .absent => ⟨[⟨.remoteShow, .absent⟩], .error (.cmdFailed .remoteShow)⟩
  | .present v d p => opStep .remoteShow (.present v d p) env.showOk (.present v d p)

/-- shutil.rmtree: recursively deletes the checkout directory. -/
def rmtreeStep (c : Checkout) : Outcome := ⟨[⟨.rmtree, c⟩], .ok .absent⟩

/-- git clone of the given branch or tag into an absent directory:
yields a clean, unpatched checkout at that version. -/
def gitCloneAt (branch : String) (env : Env) (c : Checkout) : Outcome :=
  match c with
  | .absent => opStep .clone .absent env.cloneOk (.present branch false false)
  | .present v d p => ⟨[⟨.clone, .present v d p⟩], .error (.cmdFailed .clone)⟩

/-- git fetch origin: refreshes remote refs, no working-tree change. -/
def gitFetch (env : Env) (c : Checkout) : Outcome :=
  match c with
  | .absent => ⟨[⟨.fetch, .absent⟩], .error (.cmdFailed .fetch)⟩
  | .present v d p => opStep .fetch (.present v d p) env.fetchOk (.present v d p)

/-- git checkout of the given ref: moves to that version, keeping
working-tree modifications. -/
def gitCheckout (ref : String) (env : Env) (c : Checkout) : Outcome :=
  match c with
  | .absent => ⟨[⟨.checkout, .absent⟩], .error (.cmdFailed .checkout)⟩
  | .present _ d p => opStep .checkout c env.checkoutOk (.present ref d p)

/-- git reset --hard to the given ref: discards local edits and any
applied patch, leaving a pristine tree at that version. -/
def gitResetHardTo (ref : String) (env : Env) (c : Checkout) : Outcome :=
  match c with
  | .absent => ⟨[⟨.resetHard, .absent⟩], .error (.cmdFailed .resetHard)⟩
  | .present _ _ _ => opStep .resetHard c env.resetOk (.present ref false false)

/-- git reset --hard with no ref (build_pymavlink line 144): discards
local edits and any applied patch at the current version. -/
def gitResetHard (env : Env) (c : Checkout) : Outcome :=
  match c with
  | .absent => ⟨[⟨.resetHard, .absent⟩], .error (.cmdFailed .resetHard)⟩
  | .present v _ _ => opStep .resetHard c env.resetOk (.present v false false)

/-- git pull (with or without --recurse-submodules): refreshes content,
no change to the abstract state. -/
def gitPull (env : Env) (c : Checkout) : Outcome :=
  match c with
  | .absent => ⟨[⟨.pull, .absent⟩], .error (.cmdFailed .pull)⟩
  | .present v d p => opStep .pull (.present v d p) env.pullOk (.present v d p)

/-- git apply --ignore-space-change --ignore-whitespace of the
version-specific patch file. Applying the patch to a tree that already
has it applied fails (git apply is not idempotent); otherwise it succeeds
iff the oracle bit is set (patch file exists and matches the tree). -/
def gitApply (env : Env) (c : Checkout) : Outcome :=
  match c with
  | .absent => ⟨[⟨.apply, .absent⟩], .error (.cmdFailed .apply)⟩
  | .present v d p =>
      if p then ⟨[⟨.apply, .present v d p⟩], .error (.cmdFailed .apply)⟩
      else opStep .apply (.present v d p) env.applyOk (.present v d true)

/-- The absent-directory branch of clone_px4 followed by the shared patch
step: git clone --depth 1 --branch PX4_VERSION --recurse-submodules, then
git apply of patches/hil_gps_heading_{PX4_VERSION}.patch. This is exactly
what the recursive clone_px4() call in build.py line 101 executes, since
that call always runs right after shutil.rmtree removed the directory. -/
def clone_px4Fresh (pinned : String) (env : Env) : Outcome :=
  andThen (gitCloneAt pinned env .absent) (fun c1 => gitApply env c1)

/-- clone_px4 (build.py lines 86-137). Present directory: read the
observed local version from the remote refs; if it differs from the
pinned version, delete the checkout and re-clone (the recursive call,
clone_px4Fresh), then fall through to the update sequence fetch /
checkout / reset --hard / pull; absent directory: clone fresh. Both
branches end by applying the version-specific patch. -/
def clone_px4 (pinned : String) (env : Env) (c : Checkout) : Outcome :=
  andThen
    (match c with
     | .present v d p =>
         andThen (gitRemoteShow env (.present v d p)) (fun c1 =>
           andThen
             (if v ≠ pinned then
                andThen (rmtreeStep c1) (fun _ => clone_px4Fresh pinned env)
              else ⟨[], .ok c1⟩)
             (fun c2 =>
               andThen (gitFetch env c2) (fun c3 =>
                 andThen (gitCheckout pinned env c3) (fun c4 =>
                   andThen (gitResetHardTo pinned env c4) (fun c5 =>
                     gitPull env c5)))))
     | .absent => gitCloneAt pinned env .absent)
    (fun cend => gitApply env cend)

/-- Branch the pymavlink clone tracks: clone_pymavlink clones the
repository default branch, with no pinned version. -/
def pymavlinkDefaultBranch : String := "master"

/-- clone_pymavlink (build.py lines 72-83): git pull when the directory
exists, plain git clone of the default branch otherwise. No version is
pinned and no patch is applied here. -/
def clone_pymavlink (env : Env) (c : Checkout) : Outcome :=
  match c with
  | .present v d p => gitPull env (.present v d p)
  | .absent => gitCloneAt pymavlinkDefaultBranch env .absent

/-- The patch phase at the start of build_pymavlink (build.py lines
143-154): git reset --hard, then git apply of
patches/pymavlink_{PX4_VERSION}.patch. -/
def pymavlinkPatchPhase (env : Env) (c : Checkout) : Outcome :=
  andThen (gitResetHard env c) (fun c1 => gitApply env c1)

/-- Git author identity configured in the checkout plus whether the
working tree has uncommitted changes and how many local commits exist. -/
structure StageState where
  userEmail : Option String
  userName : Option String
  hasChanges : Bool
  commits : Nat
  deriving DecidableEq

/-- Result of the staging sequence: the state it left behind and whether
every command (in particular git commit) exited with status zero. -/
structure StageOutcome where
  state : StageState
  ok : Bool
  deriving DecidableEq

/-- Author email set by container (build.py line 296). -/
def placeholderEmail : String := "github-bot@bellflight.com"

/-- Author name set by container (build.py line 298). -/
def placeholderName : String := "Github Actions"

/-- The commit-staging sequence of container (build.py lines 295-302):
git config user.email, git config user.name, git add ., git commit.
The two git config calls unconditionally set the identity. git add
stages the working tree. git commit exits non-zero when there is nothing
to commit, and check_call then raises, so ok is false in that case; the
identity configuration has already taken effect by then. -/
def stage (st : StageState) : StageOutcome :=
  let st1 := { st with userEmail := some placeholderEmail }
  let st2 := { st1 with userName := some placeholderName }
  let st3 := st2
  if st3.hasChanges then
    ⟨{ st3 with hasChanges := false, commits := st3.commits + 1 }, true⟩
  else
    ⟨st3, false⟩

/-- External actions of the container pipeline, in trace order. The two
reconcile markers stand for the clone_pymavlink and clone_px4 calls whose
internals are the state-machine model above. -/
inductive Act where
  | runCmd (cmd : List String) (cwd : String)
  | copyFile (src dst : String)
  | copyTree (src dst : String)
  | rmtreeDir (dir : String)
  | cleanDir (dir : String) (suffixes : List String)
  | reconcilePymavlinkCheckout
  | reconcilePx4Checkout
  deriving DecidableEq

/-- Model of sys.executable inside the container image. -/
def pyExe : String := "python3"

/-- Actions of build_pymavlink (build.py lines 140-201), in order:
reset and patch the pymavlink checkout, replace its message definitions
with the PX4 ones, clean both dist directories, run setup.py (with
MAVLINK_DIALECT=bell in the environment), copy every produced file
(distFiles) into DIST_DIR, and finally generate the Wireshark Lua
dissector plugin with mavgen. -/
def build_pymavlinkActs (thisDir pxVersion : String)
    (messageDefinitionsDir bellXmlDef : String)
    (distFiles : List String) : List Act :=
  let pym := PYMAVLINK_DIR thisDir pxVersion
  let pymDist := pathJoin pym "dist"
  [Act.runCmd ["git", "reset", "--hard"] pym,
   Act.runCmd ["git", "apply", "--ignore-space-change", "--ignore-whitespace",
     pathJoin (pathJoin thisDir "patches") ("pymavlink_" ++ pxVersion ++ ".patch")] pym,
   Act.rmtreeDir (pathJoin (pathJoin pym "message_definitions") "v1.0"),
   Act.copyTree messageDefinitionsDir (pathJoin (pathJoin pym "message_definitions") "v1.0"),
   Act.cleanDir pymDist [".tar.gz", ".whl"],
   Act.cleanDir (DIST_DIR thisDir) [".tar.gz", ".whl"],
   Act.runCmd [pyExe, "setup.py", "sdist", "bdist_wheel"] pym]
  ++ distFiles.map (fun f => Act.copyFile (pathJoin pymDist f) (pathJoin (DIST_DIR thisDir) f))
  ++ [Act.runCmd [pyExe, "-m", "pymavlink.tools.mavgen", "--lang=WLua",
        "--wire-protocol=2.0",
        "--output=" ++ pathJoin (DIST_DIR thisDir) "bell-avr.lua", bellXmlDef]
      (pathJoin pym "..")]

/-- Output filename of one firmware image (build.py line 217):
f-string target.PX4_VERSION.version.px4. -/
def px4ArtifactName (target pxVersion version : String) : String :=
  target ++ "." ++ pxVersion ++ "." ++ version ++ ".px4"

/-- The make invocation for one build target (build.py line 214). -/
def px4MakeAct (thisDir target : String) : Act :=
  Act.runCmd ["make", target, "-j"] (PX4_DIR thisDir)

/-- The artifact copy for one build target (build.py lines 215-218). -/
def px4CopyAct (thisDir pxVersion version target : String) : Act :=
  Act.copyFile
    (pathJoin (pathJoin (pathJoin (PX4_DIR thisDir) "build") target) (target ++ ".px4"))
    (pathJoin (DIST_DIR thisDir) (px4ArtifactName target pxVersion version))

/-- Actions of build_px4 (build.py lines 204-218): clean both .px4
output directories, then for each target in the caller-supplied order,
make the target and copy the produced image into DIST_DIR. -/
def build_px4Acts (thisDir pxVersion version : String) (targets : List String) : List Act :=
  [Act.cleanDir (pathJoin (PX4_DIR thisDir) "build") [".px4"],
   Act.cleanDir (DIST_DIR thisDir) [".px4"]]
  ++ targets.flatMap (fun t => [px4MakeAct thisDir t, px4CopyAct thisDir pxVersion version t])

/-- Actions of container (build.py lines 221-308), in order: reconcile
pymavlink (only below the layout boundary), reconcile PX4, pip installs,
inject bell.xml into the message-definitions directory, generate the C
mavlink code (only below the boundary), the commit-staging sequence, then
the two optional build pipelines gated by their request flags. -/
def containerActs (thisDir pxVersion : String)
    (shouldBuildPymavlink shouldBuildPx4 : Bool)
    (version : String) (targets distFiles : List String) : List Act :=
  (if pyStrLt pxVersion layoutBoundary then [Act.reconcilePymavlinkCheckout] else [])
  ++ [Act.reconcilePx4Checkout,
      Act.runCmd [pyExe, "-m", "pip", "install", "--upgrade", "pip", "wheel"] thisDir,
      Act.runCmd [pyExe, "-m", "pip", "install", "-r",
        pathJoin (PYMAVLINK_DIR thisDir pxVersion) "requirements.txt"] thisDir,
      Act.copyFile (pathJoin thisDir "bell.xml") (bell_xml_def thisDir pxVersion)]
  ++ (if pyStrLt pxVersion layoutBoundary then
        [Act.runCmd [pyExe, "-m", "pymavlink.tools.mavgen", "--lang=C",
           "--wire-protocol=2.0",
           "--output=" ++ generated_message_dir thisDir pxVersion,
           bell_xml_def thisDir pxVersion]
         (pathJoin (PYMAVLINK_DIR thisDir pxVersion) "..")]
      else [])
  ++ [Act.runCmd ["git", "config", "user.email", placeholderEmail] (PX4_DIR thisDir),
      Act.runCmd ["git", "config", "user.name", placeholderName] (PX4_DIR thisDir),
      Act.runCmd ["git", "add", "."] (PX4_DIR thisDir),
      Act.runCmd ["git", "commit", "-m", "Local commit to facilitate build"] (PX4_DIR thisDir)]
  ++ (if shouldBuildPymavlink then
        build_pymavlinkActs thisDir pxVersion (message_definitions_dir thisDir pxVersion)
          (bell_xml_def thisDir pxVersion) distFiles
      else [])
  ++ (if shouldBuildPx4 then build_px4Acts thisDir pxVersion version targets else [])

/-- Fail-fast executor over an action list: runs actions in order until
the first one the oracle fails; returns the performed actions (including
the failing one) and whether the whole run succeeded. -/
def execActs (ok : Act → Bool) : List Act → List Act × Bool
  | [] => ([], true)
  | a :: rest =>
      if ok a then
        let r := execActs ok rest
        (a :: r.1, r.2)
      else ([a], false)

/-- Whether an action is the external C binding generator invocation
(mavgen with --lang=C as its fourth argument). -/
def invokesCGenerator : Act → Bool
  | .runCmd cmd _ => cmd.get? 3 == some "--lang=C"
  | _ => false

/-- Whether an action is the external Wireshark dissector-plugin
generator invocation (mavgen with --lang=WLua as its fourth argument). -/
def invokesPluginGenerator : Act → Bool
  | .runCmd cmd _ => cmd.get? 3 == some "--lang=WLua"
  | _ => false

/-! Helper lemmas shared by the claim theorems. -/

theorem strAppendRightCancel (a b s : String) (h : a ++ s = b ++ s) : a = b := by
  have hd : a.data ++ s.data = b.data ++ s.data := by
    have := congrArg String.data h
    simpa [String.data_append] using this
  have : a.data = b.data := List.append_cancel_right hd
  cases a; cases b; simp_all

theorem strAppendLeftCancel (p a b : String) (h : p ++ a = p ++ b) : a = b := by
  have hd : p.data ++ a.data = p.data ++ b.data := by
    have := congrArg String.data h
    simpa [String.data_append] using this
  have : a.data = b.data := List.append_cancel_left hd
  cases a; cases b; simp_all

theorem andThen_result_ok (o : Outcome) (f : Checkout → Outcome) (s : Checkout) :
    (andThen o f).result = .ok s ↔ ∃ c, o.result = .ok c ∧ (f c).result = .ok s := by
  rcases o with ⟨st, r⟩
  cases r <;> simp [andThen]

theorem gitApply_ok_fwd (env : Env) (c s : Checkout)
    (h : (gitApply env c).result = .ok s) :
    ∃ v d, c = .present v d false ∧ s = .present v d true := by
  cases c with
  | absent => simp [gitApply] at h
  | present v d p =>
      cases p with
      | true => simp [gitApply] at h
      | false =>
          cases hA : env.applyOk with
          | false => simp [gitApply, opStep, hA] at h
          | true =>
              simp [gitApply, opStep, hA] at h
              exact ⟨v, d, rfl, h.symm⟩

theorem gitCloneAt_ok_fwd (b : String) (env : Env) (c s : Checkout)
    (h : (gitCloneAt b env c).result = .ok s) : s = .present b false false := by
  cases c with
  | absent =>
      cases hC : env.cloneOk with
      | false => simp [gitCloneAt, opStep, hC] at h
      | true => simp [gitCloneAt, opStep, hC] at h; exact h.symm
  | present v d p => simp [gitCloneAt] at h

theorem gitResetHardTo_ok_fwd (ref : String) (env : Env) (c s : Checkout)
    (h : (gitResetHardTo ref env c).result = .ok s) : s = .present ref false false := by
  cases c with
  | absent => simp [gitResetHardTo] at h
  | present v d p =>
      cases hR : env.resetOk with
      | false => simp [gitResetHardTo, opStep, hR] at h
      | true => simp [gitResetHardTo, opStep, hR] at h; exact h.symm

theorem gitResetHard_ok_fwd (env : Env) (c s : Checkout)
    (h : (gitResetHard env c).result = .ok s) :
    ∃ v d p, c = .present v d p ∧ s = .present v false false := by
  cases c with
  | absent => simp [gitResetHard] at h
  | present v d p =>
      cases hR : env.resetOk with
      | false => simp [gitResetHard, opStep, hR] at h
      | true => simp [gitResetHard, opStep, hR] at h; exact ⟨v, d, p, rfl, h.symm⟩

theorem gitPull_ok_fwd (env : Env) (c s : Checkout)
    (h : (gitPull env c).result = .ok s) : s = c := by
  cases c with
  | absent => simp [gitPull] at h
  | present v d p =>
      cases hP : env.pullOk with
      | false => simp [gitPull, opStep, hP] at h
      | true => simp [gitPull, opStep, hP] at h; exact h.symm

theorem clone_px4Fresh_ok_fwd (pinned : String) (env : Env) (s : Checkout)
    (h : (clone_px4Fresh pinned env).result = .ok s) : s = .present pinned false true := by
  rw [clone_px4Fresh, andThen_result_ok] at h
  obtain ⟨c1, h1, h2⟩ := h
  have hc1 := gitCloneAt_ok_fwd pinned env _ _ h1
  obtain ⟨v, d, hc, hs⟩ := gitApply_ok_fwd env _ _ h2
  subst hc1
  cases hc
  exact hs

theorem clone_px4_ok_state (pinned : String) (env : Env) (c s : Checkout)
    (h : (clone_px4 pinned env c).result = .ok s) : s = .present pinned false true := by
  cases c with
  | absent =>
      rw [clone_px4, andThen_result_ok] at h
      obtain ⟨c1, h1, h2⟩ := h
      have hc1 := gitCloneAt_ok_fwd pinned env _ _ h1
      obtain ⟨v, d, hc, hs⟩ := gitApply_ok_fwd env _ _ h2
      subst hc1
      cases hc
      exact hs
  | present v d p =>
      rw [clone_px4, andThen_result_ok] at h
      obtain ⟨c6, h6, hap⟩ := h
      rw [andThen_result_ok] at h6
      obtain ⟨c1, hshow, h6⟩ := h6
      rw [andThen_result_ok] at h6
      obtain ⟨c2, hbr, h6⟩ := h6
      rw [andThen_result_ok] at h6
      obtain ⟨c3, hf, h6⟩ := h6
      rw [andThen_result_ok] at h6
      obtain ⟨c4, hco, h6⟩ := h6
      rw [andThen_result_ok] at h6
      obtain ⟨c5, hr, hp⟩ := h6
      have hc5 := gitResetHardTo_ok_fwd pinned env _ _ hr
      have hc6 := gitPull_ok_fwd env _ _ hp
      obtain ⟨v1, d1, hc, hs⟩ := gitApply_ok_fwd env _ _ hap
      subst hc5
      subst hc6
      cases hc
      exact hs

theorem clone_px4_allOk_result (pinned : String) (c : Checkout) :
    (clone_px4 pinned envAllOk c).result = .ok (.present pinned false true) := by
  cases c with
  | absent => rfl
  | present v d p =>
      by_cases hv : v = pinned <;>
        simp [clone_px4, clone_px4Fresh, andThen, gitRemoteShow, gitCloneAt, gitFetch,
              gitCheckout, gitResetHardTo, gitPull, gitApply, rmtreeStep, opStep, envAllOk, hv]

theorem execActs_mem_sub (ok : Act → Bool) (l : List Act) (a : Act)
    (h : a ∈ (execActs ok l).1) : a ∈ l := by
  induction l with
  | nil => simp [execActs] at h
  | cons x rest ih =>
      by_cases hx : ok x = true
      · simp [execActs, hx] at h
        rcases h with h | h
        · simp [h]
        · exact List.mem_cons_of_mem x (ih h)
      · simp [execActs, hx] at h
        simp [h]

theorem mem_ite_nil {α : Type} {c : Prop} [Decidable c] {l : List α} {a : α}
    (h : a ∈ (if c then l else [])) : a ∈ l := by
  by_cases hc : c
  · simpa [hc] using h
  · simp [hc] at h

theorem cgen_false_px4Acts (thisDir pxVersion version : String) (targets : List String) :
    ∀ a ∈ build_px4Acts thisDir pxVersion version targets, invokesCGenerator a = false := by
  intro a ha
  simp only [build_px4Acts, List.mem_append, List.mem_cons, List.mem_flatMap,
    List.not_mem_nil, or_false, false_or] at ha
  rcases ha with (rfl | rfl) | ⟨t, ht, h⟩
  · rfl
  · rfl
  · simp only [px4MakeAct, px4CopyAct, List.mem_cons, List.not_mem_nil, or_false] at h
    rcases h with rfl | rfl
    · rfl
    · rfl

theorem cgen_false_pymActs (thisDir pxVersion mdd bx : String) (distFiles : List String) :
    ∀ a ∈ build_pymavlinkActs thisDir pxVersion mdd bx distFiles,
      invokesCGenerator a = false := by
  intro a ha
  simp only [build_pymavlinkActs, List.mem_append, List.mem_cons, List.mem_map,
    List.not_mem_nil, or_false, false_or] at ha
  rcases ha with ((rfl | rfl | rfl | rfl | rfl | rfl | rfl) | ⟨f, hf, rfl⟩) | rfl
  · rfl
  · rfl
  · rfl
  · rfl
  · rfl
  · rfl
  · rfl
  · rfl
  · rfl

theorem plugin_false_px4Acts (thisDir pxVersion version : String) (targets : List String) :
    ∀ a ∈ build_px4Acts thisDir pxVersion version targets, invokesPluginGenerator a = false := by
  intro a ha
  simp only [build_px4Acts, List.mem_append, List.mem_cons, List.mem_flatMap,
    List.not_mem_nil, or_false, false_or] at ha
  rcases ha with (rfl | rfl) | ⟨t, ht, h⟩
  · rfl
  · rfl
  · simp only [px4MakeAct, px4CopyAct, List.mem_cons, List.not_mem_nil, or_false] at h
    rcases h with rfl | rfl
    · rfl
    · rfl

theorem cgen_absent_above_boundary (thisDir pxVersion version : String) (sp s4 : Bool)
    (targets distFiles : List String)
    (hb : pyStrLt pxVersion layoutBoundary = false) :
    ∀ a ∈ containerActs thisDir pxVersion sp s4 version targets distFiles,
      invokesCGenerator a = false := by
  intro a ha
  simp only [containerActs, hb, Bool.false_eq_true, if_false, List.nil_append,
    List.append_nil, List.cons_append, List.mem_append, List.mem_cons,
    List.not_mem_nil, or_false, false_or] at ha
  rcases ha with rfl | rfl | rfl | rfl | rfl | rfl | rfl | rfl | h | h
  · rfl
  · rfl
  · rfl
  · rfl
  · rfl
  · rfl
  · rfl
  · rfl
  · exact cgen_false_pymActs thisDir pxVersion _ _ distFiles a (mem_ite_nil h)
  · exact cgen_false_px4Acts thisDir pxVersion version targets a (mem_ite_nil h)

theorem plugin_absent_without_pym (thisDir pxVersion version : String) (s4 : Bool)
    (targets distFiles : List String) :
    ∀ a ∈ containerActs thisDir pxVersion false s4 version targets distFiles,
      invokesPluginGenerator a = false := by
  intro a ha
  by_cases hb : pyStrLt pxVersion layoutBoundary = true
  · simp only [containerActs, hb, if_true, Bool.false_eq_true, if_false,
      List.cons_append, List.nil_append, List.append_nil, List.mem_append, List.mem_cons,
      List.not_mem_nil, or_false, false_or] at ha
    rcases ha with rfl | rfl | rfl | rfl | rfl | rfl | rfl | rfl | rfl | rfl | h
    · rfl
    · rfl
    · rfl
    · rfl
    · rfl
    · rfl
    · rfl
    · rfl
    · rfl
    · rfl
    · exact plugin_false_px4Acts thisDir pxVersion version targets a (mem_ite_nil h)
  · simp only [Bool.not_eq_true] at hb
    simp only [containerActs, hb, Bool.false_eq_true, if_false, List.nil_append,
      List.append_nil, List.cons_append, List.mem_append, List.mem_cons,
      List.not_mem_nil, or_false, false_or] at ha
    rcases ha with rfl | rfl | rfl | rfl | rfl | rfl | rfl | rfl | h
    · rfl
    · rfl
    · rfl
    · rfl
    · rfl
    · rfl
    · rfl
    · rfl
    · exact plugin_false_px4Acts thisDir pxVersion version targets a (mem_ite_nil h)

/-! Claim theorems. -/

/-- Claim C1, counterexample: reconciling the protocol-library checkout via
clone_pymavlink from the absent prior state terminates successfully (no
ReconcileError) in a checkout whose version-specific patch is NOT applied,
so the claimed terminal condition fails for clone_pymavlink. -/
theorem C1_counterexample :
    (clone_pymavlink envAllOk Checkout.absent).result =
      Except.ok (Checkout.present pymavlinkDefaultBranch false false)
    ∧ (Checkout.present pymavlinkDefaultBranch false false).patchApplied = false :=
  ⟨rfl, rfl⟩

/-- Claim C1 (amended): for the firmware checkout, clone_px4 terminates,
from every prior state, either with an error or in a state whose observed
local version is the pinned version and whose version patch is applied;
the protocol-library checkout gets no version pinning or patch from
clone_pymavlink itself, and becomes patched only through the
reset-and-apply phase of build_pymavlink. -/
theorem C1_reconcile_terminal_state :
    (∀ (pinned : String) (env : Env) (c : Checkout),
        (∃ e, (clone_px4 pinned env c).result = .error e) ∨
          ((clone_px4 pinned env c).result = .ok (.present pinned false true) ∧
            (Checkout.present pinned false true).obsVersion = some pinned ∧
            (Checkout.present pinned false true).patchApplied = true))
    ∧
    (∀ (env : Env) (c s t : Checkout),
        (clone_pymavlink env c).result = .ok s →
        (pymavlinkPatchPhase env s).result = .ok t →
        t.patchApplied = true) := by
  constructor
  · intro pinned env c
    cases h : (clone_px4 pinned env c).result with
    | error e => exact Or.inl ⟨e, rfl⟩
    | ok s =>
        have hs := clone_px4_ok_state pinned env c s h
        subst hs
        exact Or.inr ⟨rfl, rfl, rfl⟩
  · intro env c s t hc hp
    rw [pymavlinkPatchPhase, andThen_result_ok] at hp
    obtain ⟨c1, hr, ha⟩ := hp
    obtain ⟨v, d, hc1, ht⟩ := gitApply_ok_fwd env _ _ ha
    subst ht
    rfl

/-- Claim C1, witness instantiation at concrete inputs. -/
theorem C1_witness :
    ((∃ e, (clone_px4 "v1.13.2" envAllOk Checkout.absent).result = .error e) ∨
      ((clone_px4 "v1.13.2" envAllOk Checkout.absent).result =
          .ok (.present "v1.13.2" false true) ∧
        (Checkout.present "v1.13.2" false true).obsVersion = some "v1.13.2" ∧
        (Checkout.present "v1.13.2" false true).patchApplied = true))
    ∧ (Checkout.present "master" false true).patchApplied = true :=
  ⟨C1_reconcile_terminal_state.1 "v1.13.2" envAllOk Checkout.absent,
   C1_reconcile_terminal_state.2 envAllOk (Checkout.present "master" true true)
     (Checkout.present "master" true true) (Checkout.present "master" false true) rfl rfl⟩

/-- Claim C2: running clone_px4 twice with the same pinned version and
environment reproduces the same resulting checkout (idempotent
convergence): if both runs succeed the second returns exactly the first
result, and under the all-success environment both runs do succeed; yet
the patch-apply step alone is not idempotent: git apply fails outright on
a tree that already has the patch applied. -/
theorem C2_reconcile_idempotent :
    (∀ (pinned : String) (env : Env) (c s1 s2 : Checkout),
        (clone_px4 pinned env c).result = .ok s1 →
        (clone_px4 pinned env s1).result = .ok s2 → s2 = s1)
    ∧ (∀ (pinned : String) (c : Checkout), ∃ s,
        (clone_px4 pinned envAllOk c).result = .ok s ∧
        (clone_px4 pinned envAllOk s).result = .ok s)
    ∧ (∀ (env : Env) (v : String) (d : Bool),
        (gitApply env (.present v d true)).result = .error (.cmdFailed .apply)) := by
  refine ⟨?_, ?_, ?_⟩
  · intro pinned env c s1 s2 h1 h2
    rw [clone_px4_ok_state pinned env _ s2 h2, clone_px4_ok_state pinned env c s1 h1]
  · intro pinned c
    exact ⟨.present pinned false true, clone_px4_allOk_result pinned c,
      clone_px4_allOk_result pinned _⟩
  · intro env v d
    rfl

/-- Claim C2, witness instantiation at concrete inputs. -/
theorem C2_witness :
    Checkout.present "v1.13.3" false true = Checkout.present "v1.13.3" false true ∧
    (∃ s, (clone_px4 "v1.13.3" envAllOk (Checkout.present "v1.13.3" true false)).result = .ok s ∧
      (clone_px4 "v1.13.3" envAllOk s).result = .ok s) :=
  ⟨C2_reconcile_idempotent.1 "v1.13.3" envAllOk Checkout.absent
      (Checkout.present "v1.13.3" false true) (Checkout.present "v1.13.3" false true) rfl rfl,
   C2_reconcile_idempotent.2.1 "v1.13.3" (Checkout.present "v1.13.3" true false)⟩

/-- Claim C3: below the layout boundary the container writes bell.xml into
the legacy message-definitions path inside the firmware checkout and
invokes the external C binding generator; at or above the boundary it
writes bell.xml into the nested message-definitions path and never
invokes the generator. -/
theorem C3_version_gated_injection :
    ∀ (thisDir pxVersion version : String) (sp s4 : Bool) (targets distFiles : List String),
      (pyStrLt pxVersion layoutBoundary = true →
        Act.copyFile (pathJoin thisDir "bell.xml")
            (pathJoin
              (pathJoin (pathJoin (pathJoin (pathJoin (pathJoin (PX4_DIR thisDir) "mavlink")
                "include") "mavlink") "v2.0") "message_definitions")
              "bell.xml")
          ∈ containerActs thisDir pxVersion sp s4 version targets distFiles
        ∧ ∃ a ∈ containerActs thisDir pxVersion sp s4 version targets distFiles,
            invokesCGenerator a = true)
      ∧
      (pyStrLt pxVersion layoutBoundary = false →
        Act.copyFile (pathJoin thisDir "bell.xml")
            (pathJoin
              (pathJoin (pathJoin (pathJoin (pathJoin (pathJoin (pathJoin (PX4_DIR thisDir)
                "src") "modules") "mavlink") "mavlink") "message_definitions") "v1.0")
              "bell.xml")
          ∈ containerActs thisDir pxVersion sp s4 version targets distFiles
        ∧ ∀ a ∈ containerActs thisDir pxVersion sp s4 version targets distFiles,
            invokesCGenerator a = false) := by
  intro thisDir pxVersion version sp s4 targets distFiles
  constructor
  · intro hb
    constructor
    · simp [containerActs, bell_xml_def, message_definitions_dir, hb]
    · refine ⟨Act.runCmd [pyExe, "-m", "pymavlink.tools.mavgen", "--lang=C",
        "--wire-protocol=2.0", "--output=" ++ generated_message_dir thisDir pxVersion,
        bell_xml_def thisDir pxVersion] (pathJoin (PYMAVLINK_DIR thisDir pxVersion) ".."),
        ?_, rfl⟩
      simp [containerActs, hb]
  · intro hb
    constructor
    · simp [containerActs, bell_xml_def, message_definitions_dir, hb]
    · exact cgen_absent_above_boundary thisDir pxVersion version sp s4 targets distFiles hb

/-- Claim C3, witness instantiation at concrete versions on both sides of
the boundary. -/
theorem C3_witness :
    (Act.copyFile (pathJoin "." "bell.xml")
        (pathJoin
          (pathJoin (pathJoin (pathJoin (pathJoin (pathJoin (PX4_DIR ".") "mavlink")
            "include") "mavlink") "v2.0") "message_definitions")
          "bell.xml")
      ∈ containerActs "." "v1.12.3" true true "1.0.0" [] [])
    ∧ (Act.copyFile (pathJoin "." "bell.xml")
        (pathJoin
          (pathJoin (pathJoin (pathJoin (pathJoin (pathJoin (pathJoin (PX4_DIR ".")
            "src") "modules") "mavlink") "mavlink") "message_definitions") "v1.0")
          "bell.xml")
      ∈ containerActs "." "v1.13.2" true true "1.0.0" [] []) :=
  ⟨((C3_version_gated_injection "." "v1.12.3" "1.0.0" true true [] []).1 rfl).1,
   ((C3_version_gated_injection "." "v1.13.2" "1.0.0" true true [] []).2 rfl).1⟩

/-- Claim C4, counterexample: staging a checkout with zero working-tree
changes does not return success: git commit exits non-zero and check_call
raises, so the staging sequence reports failure instead of a no-op. -/
theorem C4_counterexample :
    (stage ⟨some "dev@example.com", some "Dev", false, 0⟩).ok = false := rfl

/-- Claim C4 (amended): on a checkout with zero working-tree changes the
staging sequence fails the run (the nothing-to-commit exit of git commit
is not recovered; check_call raises), and no empty commit is created. -/
theorem C4_stage_nothing_to_commit_fails :
    ∀ st : StageState, st.hasChanges = false →
      (stage st).ok = false ∧ (stage st).state.commits = st.commits ∧
      (stage st).state.hasChanges = false := by
  intro st h
  simp [stage, h]

/-- Claim C4, witness instantiation at a concrete staging state. -/
theorem C4_witness :
    (stage ⟨none, none, false, 5⟩).ok = false ∧
    (stage ⟨none, none, false, 5⟩).state.commits = 5 ∧
    (stage ⟨none, none, false, 5⟩).state.hasChanges = false :=
  C4_stage_nothing_to_commit_fails ⟨none, none, false, 5⟩ rfl

/-- Claim C5: when the observed local version of a present firmware
checkout differs from the pinned version, clone_px4 first inspects and
then deletes the checkout wholesale (the first two steps of the run), and
every subsequent operation of the run is performed against either the
absent directory or a checkout observed at the pinned version: the
stale-version checkout is never reused. -/
theorem C5_stale_checkout_never_reused :
    ∀ (pinned v : String) (d p : Bool) (env : Env),
      v ≠ pinned → env.showOk = true →
      ((clone_px4 pinned env (.present v d p)).steps.take 2 =
        [⟨.remoteShow, .present v d p⟩, ⟨.rmtree, .present v d p⟩])
      ∧ ∀ st ∈ (clone_px4 pinned env (.present v d p)).steps.drop 2,
          st.pre = .absent ∨ st.pre.obsVersion = some pinned := by
  intro pinned v d p env hv hs
  rcases env with ⟨so, co, fo, cho, ro, po, ao⟩
  simp only [] at hs
  subst hs
  cases co <;> cases fo <;> cases cho <;> cases ro <;> cases po <;> cases ao <;>
    simp [clone_px4, clone_px4Fresh, andThen, gitRemoteShow, gitCloneAt, gitFetch,
          gitCheckout, gitResetHardTo, gitPull, gitApply, rmtreeStep, opStep, hv,
          Checkout.obsVersion]

/-- Claim C5, witness instantiation at concrete inputs. -/
theorem C5_witness :
    ((clone_px4 "v1.13.2" envAllOk (.present "v1.12.3" true true)).steps.take 2 =
      [⟨.remoteShow, .present "v1.12.3" true true⟩, ⟨.rmtree, .present "v1.12.3" true true⟩])
    ∧ ∀ st ∈ (clone_px4 "v1.13.2" envAllOk (.present "v1.12.3" true true)).steps.drop 2,
        st.pre = .absent ∨ st.pre.obsVersion = some "v1.13.2" :=
  C5_stale_checkout_never_reused "v1.13.2" "v1.12.3" true true envAllOk (by decide) rfl

/-- Claim C6: build_px4 processes targets strictly in the given order;
when compiling the second target fails, the executed trace is exactly the
two cleans, the make and artifact copy of the first target, and the
failing make of the second: the first artifact remains copied and is
never removed afterwards, no further target is attempted, and the run
reports failure. -/
theorem C6_later_failure_keeps_earlier_artifact :
    ∀ (thisDir pxVersion version A B : String) (rest : List String) (ok : Act → Bool),
      ok (Act.cleanDir (pathJoin (PX4_DIR thisDir) "build") [".px4"]) = true →
      ok (Act.cleanDir (DIST_DIR thisDir) [".px4"]) = true →
      ok (px4MakeAct thisDir A) = true →
      ok (px4CopyAct thisDir pxVersion version A) = true →
      ok (px4MakeAct thisDir B) = false →
      execActs ok (build_px4Acts thisDir pxVersion version (A :: B :: rest)) =
        ([Act.cleanDir (pathJoin (PX4_DIR thisDir) "build") [".px4"],
          Act.cleanDir (DIST_DIR thisDir) [".px4"],
          px4MakeAct thisDir A, px4CopyAct thisDir pxVersion version A,
          px4MakeAct thisDir B], false)
      ∧ px4CopyAct thisDir pxVersion version A
          ∈ (execActs ok (build_px4Acts thisDir pxVersion version (A :: B :: rest))).1 := by
  intro thisDir pxVersion version A B rest ok h1 h2 h3 h4 h5
  have he : execActs ok (build_px4Acts thisDir pxVersion version (A :: B :: rest)) =
      ([Act.cleanDir (pathJoin (PX4_DIR thisDir) "build") [".px4"],
        Act.cleanDir (DIST_DIR thisDir) [".px4"],
        px4MakeAct thisDir A, px4CopyAct thisDir pxVersion version A,
        px4MakeAct thisDir B], false) := by
    simp [build_px4Acts, execActs, h1, h2, h3, h4, h5]
  refine ⟨he, ?_⟩
  rw [he]
  simp

/-- Claim C6, witness instantiation with a concrete oracle failing exactly
on the second make. -/
theorem C6_witness :
    execActs (fun a => !(a == px4MakeAct "wd" "B"))
        (build_px4Acts "wd" "v1.13.2" "r1" ["A", "B"]) =
      ([Act.cleanDir (pathJoin (PX4_DIR "wd") "build") [".px4"],
        Act.cleanDir (DIST_DIR "wd") [".px4"],
        px4MakeAct "wd" "A", px4CopyAct "wd" "v1.13.2" "r1" "A",
        px4MakeAct "wd" "B"], false)
    ∧ px4CopyAct "wd" "v1.13.2" "r1" "A"
        ∈ (execActs (fun a => !(a == px4MakeAct "wd" "B"))
            (build_px4Acts "wd" "v1.13.2" "r1" ["A", "B"])).1 :=
  C6_later_failure_keeps_earlier_artifact "wd" "v1.13.2" "r1" "A" "B" []
    (fun a => !(a == px4MakeAct "wd" "B"))
    (by decide) (by decide) (by decide) (by decide) (by decide)

/-- Claim C7: the dissector-plugin generator never runs without the
binding pipeline: in the build.py interface the plugin cannot be
requested separately, and when the binding pipeline is not requested no
executed action of the container run is a plugin-generator invocation,
for every success oracle; when the binding pipeline is requested, the
container trace does contain the plugin-generator invocation. -/
theorem C7_plugin_requires_binding_pipeline :
    ∀ (thisDir pxVersion version : String) (s4 : Bool) (targets distFiles : List String)
      (ok : Act → Bool),
      (∀ a ∈ (execActs ok
          (containerActs thisDir pxVersion false s4 version targets distFiles)).1,
        invokesPluginGenerator a = false)
      ∧ ∃ a ∈ containerActs thisDir pxVersion true s4 version targets distFiles,
          invokesPluginGenerator a = true := by
  intro thisDir pxVersion version s4 targets distFiles ok
  constructor
  · intro a ha
    exact plugin_absent_without_pym thisDir pxVersion version s4 targets distFiles a
      (execActs_mem_sub ok _ a ha)
  · refine ⟨Act.runCmd [pyExe, "-m", "pymavlink.tools.mavgen", "--lang=WLua",
      "--wire-protocol=2.0",
      "--output=" ++ pathJoin (DIST_DIR thisDir) "bell-avr.lua",
      bell_xml_def thisDir pxVersion]
      (pathJoin (PYMAVLINK_DIR thisDir pxVersion) ".."), ?_, rfl⟩
    simp [containerActs, build_pymavlinkActs]

/-- Claim C7, witness instantiation at concrete inputs. -/
theorem C7_witness :
    invokesPluginGenerator Act.reconcilePx4Checkout = false
    ∧ ∃ a ∈ containerActs "." "v1.13.2" true false "r" [] [],
        invokesPluginGenerator a = true :=
  ⟨(C7_plugin_requires_binding_pipeline "." "v1.13.2" "r" false [] [] (fun _ => true)).1
      Act.reconcilePx4Checkout (by decide),
   (C7_plugin_requires_binding_pipeline "." "v1.13.2" "r" false [] [] (fun _ => true)).2⟩

/-- Claim C8, counterexample: staging a checkout that already has a
configured commit identity does not leave that identity unchanged: the
fixed placeholder identity overwrites it. -/
theorem C8_counterexample :
    (stage ⟨some "alice@example.com", some "Alice", true, 0⟩).state.userEmail ≠
      some "alice@example.com"
    ∧ (stage ⟨some "alice@example.com", some "Alice", true, 0⟩).state.userName ≠
      some "Alice" := by
  constructor <;> decide

/-- Claim C8 (amended): the commit stager unconditionally configures the
fixed placeholder author identity, overwriting whatever identity was
configured in the checkout before, for every prior staging state. -/
theorem C8_stage_overwrites_identity :
    ∀ st : StageState,
      (stage st).state.userEmail = some placeholderEmail ∧
      (stage st).state.userName = some placeholderName := by
  intro st
  cases h : st.hasChanges <;> simp [stage, h]

/-- Claim C9: build_px4 copies each firmware image to a destination named
from the target identifier, the pinned version, and the run version; for
a fixed target and pinned version, two different run versions give
different artifact filenames, so neither run overwrites the other run's
artifact. -/
theorem C9_artifact_names_distinct :
    ∀ (thisDir pxVersion version target : String) (targets : List String),
      target ∈ targets →
      px4CopyAct thisDir pxVersion version target
          ∈ build_px4Acts thisDir pxVersion version targets
        ∧ ∀ version2 : String, version ≠ version2 →
            px4ArtifactName target pxVersion version ≠
              px4ArtifactName target pxVersion version2 := by
  intro thisDir pxVersion version target targets ht
  constructor
  · simp only [build_px4Acts, List.mem_append, List.mem_cons, List.mem_flatMap]
    exact Or.inr ⟨target, ht, by simp⟩
  · intro version2 hne he
    apply hne
    have h1 := strAppendRightCancel _ _ _ he
    exact strAppendLeftCancel _ _ _ h1

/-- Claim C9, witness instantiation at concrete inputs. -/
theorem C9_witness :
    px4CopyAct "." "v1.13.2" "111" "px4_fmu-v5x_default"
        ∈ build_px4Acts "." "v1.13.2" "111" ["px4_fmu-v5x_default"]
      ∧ px4ArtifactName "px4_fmu-v5x_default" "v1.13.2" "111" ≠
          px4ArtifactName "px4_fmu-v5x_default" "v1.13.2" "222" :=
  ⟨(C9_artifact_names_distinct "." "v1.13.2" "111" "px4_fmu-v5x_default"
      ["px4_fmu-v5x_default"] (by decide)).1,
   (C9_artifact_names_distinct "." "v1.13.2" "111" "px4_fmu-v5x_default"
      ["px4_fmu-v5x_default"] (by decide)).2 "222" (by decide)⟩

/-- Claim C10: on a version mismatch clone_px4 deletes and re-clones via
the recursive call, then falls through into the present-checkout update
sequence on the fresh clone (fetch, checkout, hard reset, pull), applying
the patch a second time after the hard reset discarded the first
application; the run trace is exactly this step list and the final
checkout equals the one produced from the absent prior state. -/
theorem C10_mismatch_falls_through :
    ∀ (pinned v : String) (d p : Bool), v ≠ pinned →
      ((clone_px4 pinned envAllOk (.present v d p)).steps =
        [⟨.remoteShow, .present v d p⟩, ⟨.rmtree, .present v d p⟩,
         ⟨.clone, .absent⟩, ⟨.apply, .present pinned false false⟩,
         ⟨.fetch, .present pinned false true⟩, ⟨.checkout, .present pinned false true⟩,
         ⟨.resetHard, .present pinned false true⟩, ⟨.pull, .present pinned false false⟩,
         ⟨.apply, .present pinned false false⟩]
       ∧ (clone_px4 pinned envAllOk (.present v d p)).result =
           .ok (.present pinned false true)
       ∧ (clone_px4 pinned envAllOk Checkout.absent).steps =
           [⟨.clone, .absent⟩, ⟨.apply, .present pinned false false⟩]
       ∧ (clone_px4 pinned envAllOk (.present v d p)).result =
           (clone_px4 pinned envAllOk Checkout.absent).result) := by
  intro pinned v d p hv
  refine ⟨?_, ?_, rfl, ?_⟩ <;>
    simp [clone_px4, clone_px4Fresh, andThen, gitRemoteShow, gitCloneAt, gitFetch,
          gitCheckout, gitResetHardTo, gitPull, gitApply, rmtreeStep, opStep, envAllOk, hv]

/-- Claim C10, witness instantiation at concrete inputs. -/
theorem C10_witness :
    ((clone_px4 "v1.13.2" envAllOk (.present "v1.12.3" true false)).steps =
      [⟨.remoteShow, .present "v1.12.3" true false⟩, ⟨.rmtree, .present "v1.12.3" true false⟩,
       ⟨.clone, .absent⟩, ⟨.apply, .present "v1.13.2" false false⟩,
       ⟨.fetch, .present "v1.13.2" false true⟩, ⟨.checkout, .present "v1.13.2" false true⟩,
       ⟨.resetHard, .present "v1.13.2" false true⟩, ⟨.pull, .present "v1.13.2" false false⟩,
       ⟨.apply, .present "v1.13.2" false false⟩]
     ∧ (clone_px4 "v1.13.2" envAllOk (.present "v1.12.3" true false)).result =
         .ok (.present "v1.13.2" false true)
     ∧ (clone_px4 "v1.13.2" envAllOk Checkout.absent).steps =
         [⟨.clone, .absent⟩, ⟨.apply, .present "v1.13.2" false false⟩]
     ∧ (clone_px4 "v1.13.2" envAllOk (.present "v1.12.3" true false)).result =
         (clone_px4 "v1.13.2" envAllOk Checkout.absent).result) :=
  C10_mismatch_falls_through "v1.13.2" "v1.12.3" true false (by decide)
